import Mathlib

/-!
Verification of the real-time viseme/expression blending engine and its
error-handling and adaptive-performance utilities, as implemented in this
repository:

* morph-target blending, viseme selection and decay
  (test-extracted blending logic of the Avatar component);
* `lipsyncErrorHandler.js`: `detectBrowserSupport`, `categorizeError`,
  `generateFallbackLipsync`, `getRecoveryStrategy`, `LipsyncPerformanceMonitor`;
* `lipsyncOptimization.js`: `LipsyncPerformanceOptimizer`,
  `AdaptivePerformanceOptimizer`.

JavaScript numbers are embedded as `JsNum`: either `NaN` or an exact rational.
(The source code performs no operation whose rounding behaviour matters for the
properties proved here; all constants are decimal literals.)  JavaScript
strings are embedded as Lean `String`, with case-insensitive matching done by
mapping `Char.toLower` over the character list.
-/

namespace Lipsync

/-- A JavaScript number: `NaN` or a finite value (embedded exactly as a
rational; `Infinity` does not arise in any modelled code path). -/
inductive JsNum where
  | nan : JsNum
  | val : ℚ → JsNum
deriving DecidableEq, Repr

namespace JsNum

/-- JS `isNaN`. -/
def isNaN : JsNum → Bool
  | nan => true
  | val _ => false

/-- JS addition: `NaN` propagates. -/
def add : JsNum → JsNum → JsNum
  | val a, val b => val (a + b)
  | _, _ => nan

/-- JS subtraction: `NaN` propagates. -/
def sub : JsNum → JsNum → JsNum
  | val a, val b => val (a - b)
  | _, _ => nan

/-- JS multiplication: `NaN` propagates. -/
def mul : JsNum → JsNum → JsNum
  | val a, val b => val (a * b)
  | _, _ => nan

instance : Add JsNum := ⟨add⟩
instance : Sub JsNum := ⟨sub⟩
instance : Mul JsNum := ⟨mul⟩

/-- JS truthiness of a number: `0` and `NaN` are falsy. -/
def falsy : JsNum → Bool
  | nan => true
  | val q => decide (q = 0)

/-- A number that is finite and inside `[0, 1]`. -/
def InUnit : JsNum → Prop
  | nan => False
  | val q => 0 ≤ q ∧ q ≤ 1

end JsNum

/-- JS `Math.min`: `NaN` if either argument is `NaN`. -/
def jsMin : JsNum → JsNum → JsNum
  | .val a, .val b => .val (min a b)
  | _, _ => .nan

/-- JS `Math.max`: `NaN` if either argument is `NaN`. -/
def jsMax : JsNum → JsNum → JsNum
  | .val a, .val b => .val (max a b)
  | _, _ => .nan

/-- JS `v > q` for a number `v` and a finite constant `q`:
comparisons with `NaN` are false. -/
def jsGtNum (v : JsNum) (q : ℚ) : Bool :=
  match v with
  | .nan => false
  | .val a => decide (q < a)

/-- JS `a >= d` for a finite `a` and a number `d`:
comparisons with `NaN` are false. -/
def jsGeNum (a : ℚ) (d : JsNum) : Bool :=
  match d with
  | .nan => false
  | .val q => decide (q ≤ a)

/-- Helper for JS `String.prototype.includes`: does `sub` occur as a
contiguous run inside the second list? -/
def hasSubstr (sub : List Char) : List Char → Bool
  | [] => sub.isEmpty
  | c :: rest => sub.isPrefixOf (c :: rest) || hasSubstr sub rest

/-! ### Blending-engine constants and catalogs
Extracted blending logic of the Avatar component (morph-target blending test,
lines 21-68 of the test module). -/

/-- `LIPSYNC_SMOOTHING` (test module, lines 21-26). -/
structure LipsyncSmoothing where
  ACTIVE_LERP_SPEED : ℚ
  NEUTRAL_LERP_SPEED : ℚ
  MIN_THRESHOLD : ℚ
  MAX_BLEND_VISEMES : ℕ
deriving DecidableEq, Repr

def LIPSYNC_SMOOTHING : LipsyncSmoothing :=
  { ACTIVE_LERP_SPEED := 3/10
    NEUTRAL_LERP_SPEED := 2/10
    MIN_THRESHOLD := 2/100
    MAX_BLEND_VISEMES := 3 }

/-- `facialExpressions` catalog (test module, lines 29-52). -/
def facialExpressions : List (String × List (String × ℚ)) :=
  [("default", []),
   ("smile",
     [("browInnerUp", 17/100), ("eyeSquintLeft", 4/10), ("eyeSquintRight", 44/100),
      ("mouthSmileLeft", 61/100), ("mouthSmileRight", 41/100)]),
   ("sad",
     [("mouthFrownLeft", 1), ("mouthFrownRight", 1), ("browInnerUp", 452/1000),
      ("eyeSquintLeft", 72/100), ("eyeSquintRight", 75/100)]),
   ("surprised",
     [("eyeWideLeft", 5/10), ("eyeWideRight", 5/10), ("jawOpen", 351/1000),
      ("mouthFunnel", 1), ("browInnerUp", 1)])]

/-- `visemeMapping` (test module, lines 55-69): viseme name → morph-target. -/
def visemeMapping : List (String × String) :=
  [("viseme_sil", "viseme_sil"), ("viseme_PP", "viseme_PP"), ("viseme_FF", "viseme_FF"),
   ("viseme_AA", "viseme_AA"), ("viseme_E", "viseme_E"), ("viseme_I", "viseme_I"),
   ("viseme_O", "viseme_O"), ("viseme_U", "viseme_U"),
   ("A", "viseme_AA"), ("E", "viseme_E"), ("I", "viseme_I"), ("O", "viseme_O"),
   ("U", "viseme_U")]

/-- The keys of the mock `morphTargets` dictionary (test module, lines 73-100).
A write to any other name is silently ignored
(`morphTargets[target] !== undefined`). -/
def morphTargetNames : List String :=
  ["viseme_sil", "viseme_PP", "viseme_FF", "viseme_AA", "viseme_E", "viseme_I",
   "viseme_O", "viseme_U",
   "browInnerUp", "eyeSquintLeft", "eyeSquintRight", "mouthSmileLeft",
   "mouthSmileRight", "mouthFrownLeft", "mouthFrownRight", "eyeWideLeft",
   "eyeWideRight", "jawOpen", "mouthFunnel",
   "eyeBlinkLeft", "eyeBlinkRight"]

/-- `applyMorphTarget` (test module, lines 102-108): if the target exists, the
stored value becomes `current + (clamped - current) * lerpSpeed` where
`clamped = Math.max(0, Math.min(value, 1))`.  Note the source performs no
`isNaN` check here. -/
def applyMorphTarget (morphTargets : String → JsNum) (target : String)
    (value : JsNum) (lerpSpeed : ℚ) : String → JsNum := fun x =>
  if morphTargetNames.contains target then
    if x = target then
      let currentValue := morphTargets target
      let clampedValue := jsMax (JsNum.val 0) (jsMin value (JsNum.val 1))
      currentValue + (clampedValue - currentValue) * JsNum.val lerpSpeed
    else morphTargets x
  else morphTargets x

/-- `clampValue` (integration test module, lines 619-622): unlike
`applyMorphTarget`, this standalone helper maps `NaN` to `0`. -/
def clampValue (value : JsNum) : JsNum :=
  if value.isNaN then JsNum.val 0
  else jsMax (JsNum.val 0) (jsMin value (JsNum.val 1))

/-- `isVisemeTarget` (test module, line 129):
`Object.values(visemeMapping).includes(target)`. -/
def isVisemeTarget (target : String) : Bool :=
  (visemeMapping.map Prod.snd).contains target

/-- First section of `simulateFrameUpdate` (test module, lines 131-148): apply
the selected facial expression; viseme-shaped targets are scaled by `0.3` when
lipsync is active; eye-blink targets are skipped. -/
def expressionPass (m : String → JsNum) (facialExpression : String)
    (hasActiveLipsync : Bool) : String → JsNum :=
  match facialExpressions.lookup facialExpression with
  | none => m
  | some mapping =>
    mapping.foldl (fun acc kv =>
      if kv.1 = "eyeBlinkLeft" ∨ kv.1 = "eyeBlinkRight" then acc
      else if isVisemeTarget kv.1 then
        let blendFactor : ℚ := if hasActiveLipsync then 3/10 else 1
        applyMorphTarget acc kv.1 (JsNum.val (kv.2 * blendFactor)) (1/10)
      else applyMorphTarget acc kv.1 (JsNum.val kv.2) (1/10)) m

/-- Second section of `simulateFrameUpdate` (test module, lines 151-158): apply
lipsync visemes whose score exceeds `MIN_THRESHOLD` at `ACTIVE_LERP_SPEED`.
(All values of `visemeMapping` are nonempty strings, so the JS truthiness test
`morphTarget && ...` reduces to the lookup succeeding.) -/
def lipsyncPass (m : String → JsNum) (lipsyncVisemes : Option (List (String × JsNum)))
    (hasActiveLipsync : Bool) : String → JsNum :=
  if hasActiveLipsync then
    match lipsyncVisemes with
    | none => m
    | some vs =>
      vs.foldl (fun acc vv =>
        match visemeMapping.lookup vv.1 with
        | none => acc
        | some morphTarget =>
          if jsGtNum vv.2 LIPSYNC_SMOOTHING.MIN_THRESHOLD then
            applyMorphTarget acc morphTarget vv.2 LIPSYNC_SMOOTHING.ACTIVE_LERP_SPEED
          else acc) m
  else m

/-- Third section of `simulateFrameUpdate` (test module, lines 161-168): every
viseme morph-target not named by this frame's score mapping decays toward `0`
at `NEUTRAL_LERP_SPEED`. -/
def neutralPass (m : String → JsNum)
    (lipsyncVisemes : Option (List (String × JsNum))) : String → JsNum :=
  let allVisemeTargets := (visemeMapping.map Prod.snd).filter (fun t => decide (t ≠ ""))
  let activeVs : List String :=
    match lipsyncVisemes with
    | none => []
    | some vs => (vs.map (fun vv => visemeMapping.lookup vv.1)).reduceOption
  allVisemeTargets.foldl (fun acc target =>
    if activeVs.contains target then acc
    else applyMorphTarget acc target (JsNum.val 0) LIPSYNC_SMOOTHING.NEUTRAL_LERP_SPEED) m

/-- `simulateFrameUpdate` (test module, lines 127-169): expression pass, then
lipsync pass, then neutral decay of unselected viseme targets. -/
def simulateFrameUpdate (m : String → JsNum) (facialExpression : String)
    (lipsyncVisemes : Option (List (String × JsNum)))
    (hasActiveLipsync : Bool) : String → JsNum :=
  neutralPass (lipsyncPass (expressionPass m facialExpression hasActiveLipsync)
    lipsyncVisemes hasActiveLipsync) lipsyncVisemes

/-- Every stored morph-target intensity is a finite value in `[0, 1]`. -/
def UnitState (m : String → JsNum) : Prop :=
  ∀ t, (m t).InUnit

/-- One neutral-decay step with `NEUTRAL_LERP_SPEED = 0.2`:
`current += (0 - current) * neutralSpeed` (test module, lines 106 and 166). -/
def neutralDecay (current : ℚ) : ℚ :=
  current + (0 - current) * (2/10)

/-! ### Viseme selection (integration test module, lines 572-575) -/

/-- Descending-score ordering used by the JS comparator `(a, b) => b - a`. -/
def scoreGe (a b : String × ℚ) : Prop := b.2 ≤ a.2

instance : DecidableRel scoreGe := fun a b => inferInstanceAs (Decidable (b.2 ≤ a.2))

instance : IsTotal (String × ℚ) scoreGe := ⟨fun a b => le_total b.2 a.2⟩

instance : IsTrans (String × ℚ) scoreGe := ⟨fun _ _ _ h1 h2 => le_trans h2 h1⟩

/-- `activeVisemes` selection: filter entries whose score strictly exceeds
`MIN_THRESHOLD`, sort descending by score (JS `sort` is stable; embedded as a
stable insertion sort), keep the first `MAX_BLEND_VISEMES`. -/
def activeVisemes (visemeScores : List (String × ℚ)) (MIN_THRESHOLD : ℚ)
    (MAX_BLEND_VISEMES : ℕ) : List (String × ℚ) :=
  (((visemeScores.filter (fun p => decide (MIN_THRESHOLD < p.2))).insertionSort
    scoreGe).take MAX_BLEND_VISEMES)

/-! ### Error taxonomy and classification (`lipsyncErrorHandler.js`) -/

/-- `LIPSYNC_ERROR_TYPES` (lines 7-14). -/
inductive ErrorType where
  | initializationFailed
  | audioConnectionFailed
  | processingError
  | browserUnsupported
  | contextError
  | unknownError
deriving DecidableEq, Repr

/-- An `Error`-like JS value: `message` and `name` may each be absent. -/
structure JsError where
  message : Option String
  name : Option String
deriving DecidableEq, Repr

/-- `error.message?.toLowerCase() || ''` as a character list (line 98). -/
def errMessageChars (e : JsError) : List Char :=
  (e.message.getD "").data.map Char.toLower

/-- `error.name?.toLowerCase() || ''` as a character list (line 99). -/
def errNameChars (e : JsError) : List Char :=
  (e.name.getD "").data.map Char.toLower

/-- `categorizeError` (lines 95-127): first-match cascade over lower-cased
message/name substrings; `null`/absent errors map to `unknown_error`. -/
def categorizeError (error : Option JsError) : ErrorType :=
  match error with
  | none => ErrorType.unknownError
  | some e =>
    let message := errMessageChars e
    let name := errNameChars e
    if hasSubstr "invalidstate".data name || hasSubstr "context".data message then
      ErrorType.contextError
    else if hasSubstr "audio".data message || hasSubstr "connect".data message then
      ErrorType.audioConnectionFailed
    else if hasSubstr "process".data message || hasSubstr "analyze".data message then
      ErrorType.processingError
    else if hasSubstr "not supported".data message || hasSubstr "unavailable".data message then
      ErrorType.browserUnsupported
    else if hasSubstr "init".data message || hasSubstr "constructor".data message then
      ErrorType.initializationFailed
    else ErrorType.unknownError

/-! ### Recovery strategies (`lipsyncErrorHandler.js`, lines 170-211) -/

/-- A `fallbackConfig` entry of the strategy table. -/
structure LipsyncFallbackConfig where
  fftSize : ℕ
  historySize : ℕ
deriving DecidableEq, Repr

/-- A recovery strategy row. -/
structure RecoveryStrategy where
  delay : ℕ
  maxRetries : ℕ
  fallbackConfig : Option LipsyncFallbackConfig
  strategyText : String
deriving DecidableEq, Repr

/-- `getRecoveryStrategy` (lines 170-211).  (In JS an unrecognized error-type
string also falls back to the `unknown_error` row; the claims only concern the
six kinds, embedded as the `ErrorType` enumeration.) -/
def getRecoveryStrategy : ErrorType → RecoveryStrategy
  | .initializationFailed => ⟨2000, 3, some ⟨512, 4⟩, "Retry with reduced settings"⟩
  | .audioConnectionFailed => ⟨1000, 2, none, "Retry audio connection"⟩
  | .processingError => ⟨500, 1, none, "Skip current frame and continue"⟩
  | .contextError => ⟨5000, 2, some ⟨256, 2⟩, "Reinitialize with minimal settings"⟩
  | .browserUnsupported => ⟨0, 0, none, "Use fallback animation permanently"⟩
  | .unknownError => ⟨3000, 1, some ⟨512, 4⟩, "Generic recovery attempt"⟩

/-! ### Fallback lipsync synthesis (`lipsyncErrorHandler.js`, lines 135-163) -/

/-- The read-only audio-element state consumed by `generateFallbackLipsync`.
`currentTime` is always a finite number; `duration` is `NaN` until the
metadata is known, hence a `JsNum`. -/
structure AudioRef where
  paused : Bool
  ended : Bool
  currentTime : ℚ
  duration : JsNum
deriving DecidableEq, Repr

/-- `generateFallbackLipsync` (lines 135-163).  `Math.sin` is transcendental;
it is passed as an explicit function parameter so the embedding stays exact.
The inner `try` can never throw in the modelled paths, so the `catch` arm
(lines 159-162) is unreachable. -/
def generateFallbackLipsync (sin : ℚ → ℚ) (audioEl : Option AudioRef)
    (intensity : ℚ) : List (String × ℚ) :=
  match audioEl with
  | none => []
  | some a =>
    if a.paused || a.ended then []
    else
      let currentTime := a.currentTime
      let duration := a.duration
      if duration.falsy || jsGeNum currentTime duration then []
      else
        let timeBasedIntensity := sin (currentTime * 8) * intensity + intensity
        let clampedIntensity := max 0 (min timeBasedIntensity 1)
        [("viseme_AA", clampedIntensity * (7/10)),
         ("viseme_E", clampedIntensity * (3/10)),
         ("viseme_I", clampedIntensity * (2/10)),
         ("viseme_O", clampedIntensity * (4/10))]

/-! ### Browser capability detection (`lipsyncErrorHandler.js`, lines 28-88) -/

/-- The host environment probed by `detectBrowserSupport`.  `userAgent = none`
models the probing itself raising (the outer `catch`, lines 82-85);
`analyserCreationFails` models `new AudioContext()`/`createAnalyser()`
throwing (inner `catch`, lines 51-57). -/
structure BrowserEnv where
  hasAudioContext : Bool
  hasWebkitAudioContext : Bool
  hasMediaStream : Bool
  analyserCreationFails : Bool
  userAgent : Option String
deriving DecidableEq, Repr

/-- The support verdict. -/
structure SupportResult where
  isSupported : Bool
  missingFeatures : List String
  warnings : List String
deriving DecidableEq, Repr

/-- `/android|iphone|ipad|ipod|blackberry|iemobile|opera mini/i.test(ua)`
(line 69), on the already lower-cased user agent. -/
def isMobileUA (ua : List Char) : Bool :=
  hasSubstr "android".data ua || hasSubstr "iphone".data ua ||
  hasSubstr "ipad".data ua || hasSubstr "ipod".data ua ||
  hasSubstr "blackberry".data ua || hasSubstr "iemobile".data ua ||
  hasSubstr "opera mini".data ua

/-- The digit run captured by `ua.match(/firefox\/(\d+)/)` (line 76): the
digits following the first occurrence of `firefox/` that is followed by at
least one digit; `[]` when the regex does not match. -/
def firefoxVersionDigits : List Char → List Char
  | [] => []
  | c :: rest =>
    if "firefox/".data.isPrefixOf (c :: rest) then
      let ds := ((c :: rest).drop "firefox/".data.length).takeWhile Char.isDigit
      if ds.isEmpty then firefoxVersionDigits rest else ds
    else firefoxVersionDigits rest

/-- JS `parseInt` on a nonempty digit string. -/
def parseDigits (ds : List Char) : ℕ :=
  ds.foldl (fun n c => 10 * n + (c.toNat - 48)) 0

/-- `firefoxVersion && parseInt(firefoxVersion[1]) < 60` (line 77). -/
def firefoxTooOld (ua : List Char) : Bool :=
  let ds := firefoxVersionDigits ua
  !ds.isEmpty && decide (parseDigits ds < 60)

/-- `detectBrowserSupport` (lines 28-88). -/
def detectBrowserSupport (env : BrowserEnv) : SupportResult :=
  let hasAC := env.hasAudioContext || env.hasWebkitAudioContext
  let supported1 := true
  let missing1 : List String := []
  let supported2 := if hasAC then supported1 else false
  let missing2 := if hasAC then missing1 else missing1 ++ ["Web Audio API"]
  let supported3 := if env.hasMediaStream then supported2 else false
  let missing3 := if env.hasMediaStream then missing2 else missing2 ++ ["MediaStream API"]
  let warnings1 : List String := []
  let warnings2 :=
    if hasAC && env.analyserCreationFails then warnings1 ++ ["AnalyserNode creation failed"]
    else warnings1
  match env.userAgent with
  | none =>
    ⟨false, missing3 ++ ["Browser detection failed"], warnings2⟩
  | some ua =>
    let userAgent := ua.data.map Char.toLower
    let warnings3 :=
      if hasSubstr "safari".data userAgent && !hasSubstr "chrome".data userAgent then
        warnings2 ++ ["Safari may have limited Web Audio API support"]
      else warnings2
    let warnings4 :=
      if isMobileUA userAgent then
        warnings3 ++ ["Mobile browsers may have performance limitations"]
      else warnings3
    let warnings5 :=
      if hasSubstr "firefox".data userAgent && firefoxTooOld userAgent then
        warnings4 ++ ["Firefox version may be too old for optimal support"]
      else warnings4
    ⟨supported3, missing3, warnings5⟩

/-! ### Performance monitor (`lipsyncErrorHandler.js`, lines 239-304) -/

/-- The `lastError` record kept by the monitor (lines 274-278). -/
structure LastError where
  message : Option String
  timestamp : ℚ
  errType : ErrorType
deriving DecidableEq, Repr

/-- `LipsyncPerformanceMonitor.metrics` (lines 240-247). -/
structure LipsyncPerformanceMonitor where
  processingTime : List ℚ
  errorCount : ℕ
  successCount : ℕ
  lastError : Option LastError
deriving DecidableEq, Repr

/-- The stats object returned by `getStats` (lines 281-294).
`averageProcessingTime` is returned before the JS `toFixed(2)` formatting. -/
structure MonitorStats where
  averageProcessingTime : ℚ
  errorRate : JsNum
  totalErrors : ℕ
  totalSuccesses : ℕ
  lastError : Option LastError
deriving DecidableEq, Repr

/-- JS `x || 0` on a number: `NaN` (and `0` itself) become `0`. -/
def jsOrZero : JsNum → JsNum
  | .nan => .val 0
  | .val q => if q = 0 then .val 0 else .val q

/-- JS division of the two counters: `0/0` is `NaN` (the denominator is zero
exactly when both counters are, so `Infinity` cannot arise). -/
def jsDivCounts (e s : ℕ) : JsNum :=
  if e + s = 0 then .nan else .val ((e : ℚ) / ((e : ℚ) + (s : ℚ)))

namespace LipsyncPerformanceMonitor

/-- The constructor state (lines 240-247). -/
def init : LipsyncPerformanceMonitor := ⟨[], 0, 0, none⟩

/-- `endTiming` (lines 253-266): push the measured duration, then evict the
oldest entry once more than 100 are stored.  The duration is
`performance.now() - startTime`; the ambient clock is passed as the computed
duration. -/
def endTiming (st : LipsyncPerformanceMonitor) (duration : ℚ) :
    LipsyncPerformanceMonitor :=
  let times := st.processingTime ++ [duration]
  let times := if times.length > 100 then times.drop 1 else times
  { st with processingTime := times }

/-- `recordSuccess` (lines 268-270). -/
def recordSuccess (st : LipsyncPerformanceMonitor) : LipsyncPerformanceMonitor :=
  { st with successCount := st.successCount + 1 }

/-- `recordError` (lines 272-279); `now` is the ambient `Date.now()`. -/
def recordError (st : LipsyncPerformanceMonitor) (error : JsError) (now : ℚ) :
    LipsyncPerformanceMonitor :=
  { st with
    errorCount := st.errorCount + 1
    lastError := some ⟨error.message, now, categorizeError (some error)⟩ }

/-- `getStats` (lines 281-294); note the `|| 0` guard on `errorRate`. -/
def getStats (st : LipsyncPerformanceMonitor) : MonitorStats :=
  let processingTimes := st.processingTime
  let avgProcessingTime :=
    if processingTimes.length > 0 then
      processingTimes.sum / (processingTimes.length : ℚ)
    else 0
  { averageProcessingTime := avgProcessingTime
    errorRate := jsOrZero (jsDivCounts st.errorCount st.successCount)
    totalErrors := st.errorCount
    totalSuccesses := st.successCount
    lastError := st.lastError }

/-- `reset` (lines 296-303). -/
def reset (_st : LipsyncPerformanceMonitor) : LipsyncPerformanceMonitor := init

end LipsyncPerformanceMonitor

/-- The monitor's public operations.  `startTiming` and `getStats` read the
clock or the state but mutate nothing. -/
inductive MonitorOp where
  | startTiming
  | endTiming (duration : ℚ)
  | recordSuccess
  | recordError (error : JsError) (now : ℚ)
  | getStats
  | reset
deriving DecidableEq, Repr

/-- State reached by one monitor operation. -/
def monitorStep (st : LipsyncPerformanceMonitor) : MonitorOp → LipsyncPerformanceMonitor
  | .startTiming => st
  | .endTiming d => st.endTiming d
  | .recordSuccess => st.recordSuccess
  | .recordError e now => st.recordError e now
  | .getStats => st
  | .reset => st.reset

/-- State reached by a sequence of monitor operations. -/
def monitorRun (st : LipsyncPerformanceMonitor) : List MonitorOp → LipsyncPerformanceMonitor
  | [] => st
  | op :: ops => monitorRun (monitorStep st op) ops

/-! ### Performance optimizer (`lipsyncOptimization.js`) -/

/-- Smoothing block of `OPTIMAL_LIPSYNC_CONFIG` (lines 14-20). -/
structure SmoothingConfig where
  ACTIVE_LERP_SPEED : ℚ
  NEUTRAL_LERP_SPEED : ℚ
  MIN_THRESHOLD : ℚ
  MAX_BLEND_VISEMES : ℚ
  EXPRESSION_BLEND_FACTOR : ℚ
deriving DecidableEq, Repr

/-- Performance-threshold block of `OPTIMAL_LIPSYNC_CONFIG` (lines 22-28).
The adaptive optimizer reads these module-level constants, never a mutated
copy. -/
structure PerformanceThresholds where
  MAX_PROCESSING_TIME : ℚ
  MAX_MEMORY_INCREASE : ℚ
  TARGET_FPS : ℚ
  ERROR_THRESHOLD : ℚ
deriving DecidableEq, Repr

/-- The configuration fields read and written by `AdaptivePerformanceOptimizer`
(`fftSize`, `historySize` and the smoothing block; the browser-specific extras
and the constant `performance` block are never touched by it). -/
structure LipsyncConfig where
  fftSize : ℚ
  historySize : ℚ
  smoothing : SmoothingConfig
deriving DecidableEq, Repr

/-- `OPTIMAL_LIPSYNC_CONFIG.smoothing` (lines 14-20). -/
def OPTIMAL_SMOOTHING : SmoothingConfig :=
  { ACTIVE_LERP_SPEED := 3/10
    NEUTRAL_LERP_SPEED := 2/10
    MIN_THRESHOLD := 2/100
    MAX_BLEND_VISEMES := 3
    EXPRESSION_BLEND_FACTOR := 3/10 }

/-- `OPTIMAL_LIPSYNC_CONFIG.performance` (lines 22-28). -/
def OPTIMAL_PERFORMANCE : PerformanceThresholds :=
  { MAX_PROCESSING_TIME := 1
    MAX_MEMORY_INCREASE := 10
    TARGET_FPS := 60
    ERROR_THRESHOLD := 5/100 }

/-- `OPTIMAL_LIPSYNC_CONFIG` (lines 8-29), restricted to the optimizer-visible
fields. -/
def OPTIMAL_LIPSYNC_CONFIG : LipsyncConfig :=
  { fftSize := 1024, historySize := 8, smoothing := OPTIMAL_SMOOTHING }

/-- One entry of `LipsyncPerformanceOptimizer.measurements` (lines 89-94). -/
structure Measurement where
  operation : String
  duration : ℚ
  timestamp : ℚ
  frameIdx : ℕ
deriving DecidableEq, Repr

/-- `LipsyncPerformanceOptimizer` state (lines 61-68; the memory baseline is
environment-supplied and not consumed by any modelled claim). -/
structure LipsyncPerformanceOptimizer where
  measurements : List Measurement
  errorCount : ℕ
  successCount : ℕ
  startTime : ℚ
  frameCount : ℕ
deriving DecidableEq, Repr

namespace LipsyncPerformanceOptimizer

/-- Constructor (lines 61-68); `now` is the ambient `performance.now()`. -/
def init (now : ℚ) : LipsyncPerformanceOptimizer := ⟨[], 0, 0, now, 0⟩

/-- `endTiming` (lines 85-97): push a measurement and advance the frame
counter.  Unlike the monitor in `lipsyncErrorHandler.js`, NO cap is applied to
`measurements`. -/
def endTiming (st : LipsyncPerformanceOptimizer) (startTime endTime : ℚ)
    (operation : String) : LipsyncPerformanceOptimizer :=
  let duration := endTime - startTime
  { st with
    measurements := st.measurements ++ [⟨operation, duration, endTime, st.frameCount⟩]
    frameCount := st.frameCount + 1 }

/-- `recordSuccess` (lines 99-101). -/
def recordSuccess (st : LipsyncPerformanceOptimizer) : LipsyncPerformanceOptimizer :=
  { st with successCount := st.successCount + 1 }

/-- `recordError` (lines 103-106). -/
def recordError (st : LipsyncPerformanceOptimizer) : LipsyncPerformanceOptimizer :=
  { st with errorCount := st.errorCount + 1 }

/-- The `errorRate` field computed by `getStats` (line 130):
`errorCount / (errorCount + successCount)` with NO `|| 0` guard, so a fresh
instance reports `0/0 = NaN`. -/
def getStatsErrorRate (st : LipsyncPerformanceOptimizer) : JsNum :=
  jsDivCounts st.errorCount st.successCount

end LipsyncPerformanceOptimizer

/-! ### Adaptive optimizer (`lipsyncOptimization.js`, lines 239-338) -/

/-- The two stats fields consumed by `shouldAdapt` (lines 270-276); the JS
object carries further fields which no adaptive decision reads. -/
structure PerfStats where
  averageProcessingTime : ℚ
  averageFPS : ℚ
deriving DecidableEq, Repr

/-- One entry of `performanceHistory` (lines 248-252). -/
structure HistoryEntry where
  timestamp : ℚ
  stats : PerfStats
  config : LipsyncConfig
deriving DecidableEq, Repr

/-- `AdaptivePerformanceOptimizer` state (lines 240-245). -/
structure AdaptivePerformanceOptimizer where
  performanceHistory : List HistoryEntry
  currentConfig : LipsyncConfig
  adaptationCount : ℕ
  maxAdaptations : ℕ
deriving DecidableEq, Repr

namespace AdaptivePerformanceOptimizer

/-- Constructor (lines 240-245): `currentConfig` is
`detectBrowserAndOptimize()`, which depends on the ambient user agent and is
passed in as `cfg`; `maxAdaptations` is the literal `5`. -/
def init (cfg : LipsyncConfig) : AdaptivePerformanceOptimizer := ⟨[], cfg, 0, 5⟩

/-- `analyzePerformance` (lines 247-258): append a snapshot, keep the last
10; `now` is the ambient `Date.now()`. -/
def analyzePerformance (o : AdaptivePerformanceOptimizer) (now : ℚ)
    (stats : PerfStats) : AdaptivePerformanceOptimizer :=
  let h := o.performanceHistory ++ [⟨now, stats, o.currentConfig⟩]
  let h := if h.length > 10 then h.drop 1 else h
  { o with performanceHistory := h }

/-- The averages over `performanceHistory.slice(-3)` (lines 269-276). -/
def recentAverages (o : AdaptivePerformanceOptimizer) : ℚ × ℚ :=
  let recentStats := o.performanceHistory.drop (o.performanceHistory.length - 3)
  (((recentStats.map (fun e => e.stats.averageProcessingTime)).sum /
      (recentStats.length : ℚ)),
   ((recentStats.map (fun e => e.stats.averageFPS)).sum /
      (recentStats.length : ℚ)))

/-- `shouldAdapt` (lines 260-283). -/
def shouldAdapt (o : AdaptivePerformanceOptimizer) : Bool :=
  if o.adaptationCount ≥ o.maxAdaptations then false
  else if o.performanceHistory.length < 3 then false
  else
    decide ((recentAverages o).1 > OPTIMAL_PERFORMANCE.MAX_PROCESSING_TIME ∨
      (recentAverages o).2 < OPTIMAL_PERFORMANCE.TARGET_FPS * (8/10))

/-- The minimal configuration installed by the final ladder rung
(lines 310-320). -/
def minimalConfig : LipsyncConfig :=
  { fftSize := 256
    historySize := 2
    smoothing :=
      { ACTIVE_LERP_SPEED := 1/10
        NEUTRAL_LERP_SPEED := 1/10
        MIN_THRESHOLD := 1/10
        MAX_BLEND_VISEMES := 1
        EXPRESSION_BLEND_FACTOR := 1/10 } }

/-- `adaptConfiguration` (lines 285-327): a no-op returning the current
configuration when `shouldAdapt()` is false; otherwise advance the counter and
apply the rung selected by the new counter value. -/
def adaptConfiguration (o : AdaptivePerformanceOptimizer) :
    AdaptivePerformanceOptimizer × LipsyncConfig :=
  if !shouldAdapt o then (o, o.currentConfig)
  else
    let n := o.adaptationCount + 1
    let cfg := o.currentConfig
    let cfg :=
      if n = 1 then { cfg with historySize := max 4 (cfg.historySize - 2) }
      else if n = 2 then { cfg with fftSize := max 512 (cfg.fftSize / 2) }
      else if n = 3 then
        { cfg with smoothing :=
          { cfg.smoothing with
            MIN_THRESHOLD := cfg.smoothing.MIN_THRESHOLD * (3/2)
            MAX_BLEND_VISEMES := max 1 (cfg.smoothing.MAX_BLEND_VISEMES - 1) } }
      else if n = 4 then
        { cfg with smoothing :=
          { cfg.smoothing with
            ACTIVE_LERP_SPEED := cfg.smoothing.ACTIVE_LERP_SPEED * (8/10)
            NEUTRAL_LERP_SPEED := cfg.smoothing.NEUTRAL_LERP_SPEED * (8/10) } }
      else minimalConfig
    ({ o with adaptationCount := n, currentConfig := cfg }, cfg)

end AdaptivePerformanceOptimizer

/-- The adaptive optimizer's public operations. -/
inductive OptimizerOp where
  | analyze (now : ℚ) (stats : PerfStats)
  | adapt
deriving DecidableEq, Repr

/-- State reached by one optimizer operation. -/
def optStep (o : AdaptivePerformanceOptimizer) : OptimizerOp → AdaptivePerformanceOptimizer
  | .analyze now stats => o.analyzePerformance now stats
  | .adapt => o.adaptConfiguration.1

/-- State reached by a sequence of optimizer operations. -/
def optRun (o : AdaptivePerformanceOptimizer) : List OptimizerOp → AdaptivePerformanceOptimizer
  | [] => o
  | op :: ops => optRun (optStep o op) ops

end Lipsync

/-! ## Theorems -/

namespace Lipsync

@[simp] theorem JsNum.val_add (a b : ℚ) : JsNum.val a + JsNum.val b = JsNum.val (a + b) := rfl

@[simp] theorem JsNum.val_sub (a b : ℚ) : JsNum.val a - JsNum.val b = JsNum.val (a - b) := rfl

@[simp] theorem JsNum.val_mul (a b : ℚ) : JsNum.val a * JsNum.val b = JsNum.val (a * b) := rfl

@[simp] theorem JsNum.nan_add (x : JsNum) : JsNum.nan + x = JsNum.nan := rfl

@[simp] theorem JsNum.add_nan (x : JsNum) : x + JsNum.nan = JsNum.nan := by cases x <;> rfl

@[simp] theorem JsNum.nan_sub (x : JsNum) : JsNum.nan - x = JsNum.nan := rfl

@[simp] theorem JsNum.sub_nan (x : JsNum) : x - JsNum.nan = JsNum.nan := by cases x <;> rfl

@[simp] theorem JsNum.nan_mul (x : JsNum) : JsNum.nan * x = JsNum.nan := rfl

@[simp] theorem JsNum.mul_nan (x : JsNum) : x * JsNum.nan = JsNum.nan := by cases x <;> rfl

@[simp] theorem jsMin_val (a b : ℚ) : jsMin (.val a) (.val b) = .val (min a b) := rfl

@[simp] theorem jsMax_val (a b : ℚ) : jsMax (.val a) (.val b) = .val (max a b) := rfl

@[simp] theorem jsMin_nan_right (x : JsNum) : jsMin x .nan = .nan := by cases x <;> rfl

@[simp] theorem jsMax_nan_right (x : JsNum) : jsMax x .nan = .nan := by cases x <;> rfl

@[simp] theorem jsMin_nan_left (x : JsNum) : jsMin .nan x = .nan := rfl

@[simp] theorem jsMax_nan_left (x : JsNum) : jsMax .nan x = .nan := rfl

/-- Claim C5 — the recovery-strategy table: `getRecoveryStrategy` is a pure
lookup returning exactly the six fixed `(delay, maxRetries)` pairs —
`initialization_failed ↦ (2000, 3)`, `audio_connection_failed ↦ (1000, 2)`,
`processing_error ↦ (500, 1)`, `context_error ↦ (5000, 2)`,
`browser_unsupported ↦ (0, 0)`, `unknown_error ↦ (3000, 1)` — so
`browser_unsupported` gets `maxRetries = 0` while every other kind has
`maxRetries ≥ 1` and a positive delay. -/
theorem getRecoveryStrategy_table :
    (∀ k : ErrorType, k ≠ ErrorType.browserUnsupported →
      1 ≤ (getRecoveryStrategy k).maxRetries ∧ 0 < (getRecoveryStrategy k).delay) ∧
    (getRecoveryStrategy .initializationFailed).delay = 2000 ∧
    (getRecoveryStrategy .initializationFailed).maxRetries = 3 ∧
    (getRecoveryStrategy .audioConnectionFailed).delay = 1000 ∧
    (getRecoveryStrategy .audioConnectionFailed).maxRetries = 2 ∧
    (getRecoveryStrategy .processingError).delay = 500 ∧
    (getRecoveryStrategy .processingError).maxRetries = 1 ∧
    (getRecoveryStrategy .contextError).delay = 5000 ∧
    (getRecoveryStrategy .contextError).maxRetries = 2 ∧
    (getRecoveryStrategy .browserUnsupported).delay = 0 ∧
    (getRecoveryStrategy .browserUnsupported).maxRetries = 0 ∧
    (getRecoveryStrategy .unknownError).delay = 3000 ∧
    (getRecoveryStrategy .unknownError).maxRetries = 1 := by
  refine ⟨fun k hk => ?_, rfl, rfl, rfl, rfl, rfl, rfl, rfl, rfl, rfl, rfl, rfl, rfl⟩
  cases k <;> first
    | exact absurd rfl hk
    | exact ⟨by decide, by decide⟩

/-- Witness for C5 at the concrete kind `processing_error`. -/
theorem getRecoveryStrategy_table_witness :
    1 ≤ (getRecoveryStrategy .processingError).maxRetries ∧
    0 < (getRecoveryStrategy .processingError).delay :=
  getRecoveryStrategy_table.1 ErrorType.processingError (by decide)

/-- Claim C4 — error classification: `categorizeError` is a total function of
the error's lower-cased message and name, returning one of the six kinds by a
fixed first-match cascade — (1) name containing `invalidstate` or message
containing `context` → `context_error`; (2) message containing `audio` or
`connect` → `audio_connection_failed`; (3) `process`/`analyze` →
`processing_error`; (4) `not supported`/`unavailable` → `browser_unsupported`;
(5) `init`/`constructor` → `initialization_failed`; (6) otherwise
`unknown_error`.  An absent error maps to `unknown_error` without failing, and
a message containing both `audio` and `process` (matching no earlier rule)
classifies as `audio_connection_failed`. -/
theorem categorizeError_cascade :
    categorizeError none = ErrorType.unknownError ∧
    (∀ e : JsError,
      let message := errMessageChars e
      let name := errNameChars e
      ((hasSubstr "invalidstate".data name || hasSubstr "context".data message) = true →
        categorizeError (some e) = ErrorType.contextError) ∧
      ((hasSubstr "invalidstate".data name || hasSubstr "context".data message) = false →
        (hasSubstr "audio".data message || hasSubstr "connect".data message) = true →
        categorizeError (some e) = ErrorType.audioConnectionFailed) ∧
      ((hasSubstr "invalidstate".data name || hasSubstr "context".data message) = false →
        (hasSubstr "audio".data message || hasSubstr "connect".data message) = false →
        (hasSubstr "process".data message || hasSubstr "analyze".data message) = true →
        categorizeError (some e) = ErrorType.processingError) ∧
      ((hasSubstr "invalidstate".data name || hasSubstr "context".data message) = false →
        (hasSubstr "audio".data message || hasSubstr "connect".data message) = false →
        (hasSubstr "process".data message || hasSubstr "analyze".data message) = false →
        (hasSubstr "not supported".data message || hasSubstr "unavailable".data message) = true →
        categorizeError (some e) = ErrorType.browserUnsupported) ∧
      ((hasSubstr "invalidstate".data name || hasSubstr "context".data message) = false →
        (hasSubstr "audio".data message || hasSubstr "connect".data message) = false →
        (hasSubstr "process".data message || hasSubstr "analyze".data message) = false →
        (hasSubstr "not supported".data message || hasSubstr "unavailable".data message) = false →
        (hasSubstr "init".data message || hasSubstr "constructor".data message) = true →
        categorizeError (some e) = ErrorType.initializationFailed) ∧
      ((hasSubstr "invalidstate".data name || hasSubstr "context".data message) = false →
        (hasSubstr "audio".data message || hasSubstr "connect".data message) = false →
        (hasSubstr "process".data message || hasSubstr "analyze".data message) = false →
        (hasSubstr "not supported".data message || hasSubstr "unavailable".data message) = false →
        (hasSubstr "init".data message || hasSubstr "constructor".data message) = false →
        categorizeError (some e) = ErrorType.unknownError)) ∧
    categorizeError (some ⟨some "audio processing failed", none⟩) =
      ErrorType.audioConnectionFailed := by
  refine ⟨rfl, fun e => ?_, by decide⟩
  refine ⟨fun h1 => ?_, fun h1 h2 => ?_, fun h1 h2 h3 => ?_, fun h1 h2 h3 h4 => ?_,
    fun h1 h2 h3 h4 h5 => ?_, fun h1 h2 h3 h4 h5 => ?_⟩ <;>
    simp only [categorizeError] <;>
    simp [*]

/-- Witness for C4 at a concrete error matched by the second rule. -/
theorem categorizeError_cascade_witness :
    categorizeError (some ⟨some "cannot connect stream", some "TypeError"⟩) =
      ErrorType.audioConnectionFailed :=
  ((categorizeError_cascade.2.1 ⟨some "cannot connect stream", some "TypeError"⟩).2.1
    (by decide) (by decide))

/-- Claim C1 — viseme selection: for every score mapping and every
configuration with `maxBlendCount ≥ 1`, the selection keeps exactly the
entries whose score strictly exceeds `minThreshold` (every selected entry is
such an entry, and when at most `maxBlendCount` entries qualify, every
qualifying entry is selected), in descending score order, truncated to
`maxBlendCount` entries; on `{AA: 0.8, E: 0.4, I: 0.2, O: 0.05}` with
`minThreshold = 0.02` and `maxBlendCount = 3` the selected ordered list is
`[viseme_AA, viseme_E, viseme_I]`. -/
theorem activeVisemes_selection (visemeScores : List (String × ℚ))
    (minThreshold : ℚ) (maxBlendCount : ℕ) (hmax : 1 ≤ maxBlendCount) :
    (activeVisemes visemeScores minThreshold maxBlendCount).length ≤ maxBlendCount ∧
    (∀ p ∈ activeVisemes visemeScores minThreshold maxBlendCount,
      minThreshold < p.2 ∧ p ∈ visemeScores) ∧
    List.Sorted scoreGe (activeVisemes visemeScores minThreshold maxBlendCount) ∧
    ((visemeScores.filter (fun p => decide (minThreshold < p.2))).length ≤ maxBlendCount →
      ∀ p ∈ visemeScores.filter (fun p => decide (minThreshold < p.2)),
        p ∈ activeVisemes visemeScores minThreshold maxBlendCount) ∧
    activeVisemes
        [("viseme_AA", 8/10), ("viseme_E", 4/10), ("viseme_I", 2/10), ("viseme_O", 5/100)]
        (2/100) 3 =
      [("viseme_AA", 8/10), ("viseme_E", 4/10), ("viseme_I", 2/10)] := by
  refine ⟨List.length_take_le _ _, fun p hp => ?_, ?_, fun hlen p hp => ?_, ?_⟩
  · have hmem := List.mem_of_mem_take hp
    have hmem2 := (List.perm_insertionSort scoreGe _).mem_iff.mp hmem
    have := List.mem_filter.mp hmem2
    exact ⟨of_decide_eq_true this.2, this.1⟩
  · exact List.Pairwise.sublist (List.take_sublist _ _)
      (List.sorted_insertionSort scoreGe _)
  · have hlen2 : ((visemeScores.filter
        (fun p => decide (minThreshold < p.2))).insertionSort scoreGe).length ≤
        maxBlendCount := by
      rw [(List.perm_insertionSort scoreGe _).length_eq]
      exact hlen
    unfold activeVisemes
    rw [List.take_of_length_le hlen2]
    exact (List.perm_insertionSort scoreGe _).mem_iff.mpr hp
  · norm_num [activeVisemes, List.insertionSort, List.orderedInsert, scoreGe, List.filter]

/-- Witness for C1: the concrete configuration `minThreshold = 0.02`,
`maxBlendCount = 3` satisfies `1 ≤ maxBlendCount`, and the selection over the
claim's example scores then has at most three entries. -/
theorem activeVisemes_selection_witness :
    (activeVisemes
      [("viseme_AA", 8/10), ("viseme_E", 4/10), ("viseme_I", 2/10), ("viseme_O", 5/100)]
      (2/100) 3).length ≤ 3 :=
  (activeVisemes_selection
    [("viseme_AA", 8/10), ("viseme_E", 4/10), ("viseme_I", 2/10), ("viseme_O", 5/100)]
    (2/100) 3 (by decide)).1

/-- Claim C3 — decay law: starting from any intensity `0 < c ≤ 1`, iterating
`current += (0 - current) * neutralSpeed` with `neutralSpeed = 0.2` (one
neutral-decay write of `applyMorphTarget` per frame) yields exactly
`c * 0.8 ^ n` after `n` frames, is strictly decreasing, stays nonnegative, and
is within `minThreshold = 0.02` of `0` after at most 18 frames. -/
theorem neutralDecay_law (c : ℚ) (hc0 : 0 < c) (hc1 : c ≤ 1) :
    (∀ n : ℕ, neutralDecay^[n] c = c * (8/10) ^ n) ∧
    (∀ n : ℕ, neutralDecay^[n + 1] c < neutralDecay^[n] c) ∧
    (∀ n : ℕ, 0 ≤ neutralDecay^[n] c) ∧
    neutralDecay^[18] c < 2/100 ∧
    (∀ (m : String → JsNum) (t : String) (q : ℚ),
      morphTargetNames.contains t = true → m t = JsNum.val q →
      applyMorphTarget m t (JsNum.val 0) (2/10) t = JsNum.val (neutralDecay q)) := by
  have key : ∀ n : ℕ, neutralDecay^[n] c = c * (8/10) ^ n := by
    intro n
    induction n with
    | zero => simp
    | succ n ih =>
      rw [Function.iterate_succ_apply', ih, neutralDecay]
      ring
  have hpow : ∀ n : ℕ, (0:ℚ) < (8/10) ^ n := fun n => by positivity
  refine ⟨key, fun n => ?_, fun n => ?_, ?_, fun m t q ht hq => ?_⟩
  · rw [key, key]
    have : ((8:ℚ)/10) ^ (n + 1) < (8/10) ^ n := by
      rw [pow_succ]
      nlinarith [hpow n]
    nlinarith [hpow n]
  · rw [key]
    positivity
  · rw [key 18]
    have h1 : c * (8/10 : ℚ) ^ 18 ≤ (8/10 : ℚ) ^ 18 :=
      mul_le_of_le_one_left (hpow 18).le hc1
    have h2 : ((8:ℚ)/10) ^ 18 < 2/100 := by norm_num
    linarith
  · simp only [applyMorphTarget, ht, if_true]
    simp [hq, neutralDecay]

/-- Witness for C3 at the claim's starting intensity `c = 1`. -/
theorem neutralDecay_law_witness : neutralDecay^[18] (1:ℚ) < 2/100 :=
  (neutralDecay_law 1 (by norm_num) (by norm_num)).2.2.2.1

theorem foldl_unitState_preserve {β : Type} (f : (String → JsNum) → β → (String → JsNum))
    (l : List β) (h : ∀ acc b, b ∈ l → UnitState acc → UnitState (f acc b))
    (m : String → JsNum) (hm : UnitState m) : UnitState (l.foldl f m) := by
  induction l generalizing m with
  | nil => exact hm
  | cons x xs ih =>
    exact ih (fun acc b hb => h acc b (List.mem_cons_of_mem _ hb)) _
      (h m x (List.mem_cons_self _ _) hm)

theorem jsGtNum_ne_nan {v : JsNum} {q : ℚ} (h : jsGtNum v q = true) : v ≠ JsNum.nan := by
  cases v with
  | nan => simp [jsGtNum] at h
  | val a => exact fun hcontra => JsNum.noConfusion hcontra

/-- A write through `applyMorphTarget` keeps every intensity inside `[0, 1]`
provided the incoming value is not `NaN` and the lerp speed lies in `[0, 1]`:
the stored value interpolates between the current intensity and the
clamped-to-`[0,1]` input. -/
theorem applyMorphTarget_inUnit (m : String → JsNum) (target : String) (v : JsNum)
    (s : ℚ) (hv : v ≠ JsNum.nan) (hs0 : 0 ≤ s) (hs1 : s ≤ 1) (hm : UnitState m) :
    UnitState (applyMorphTarget m target v s) := by
  intro t
  unfold applyMorphTarget
  split
  · split
    · cases v with
      | nan => exact absurd rfl hv
      | val q =>
        cases hmtv : m target with
        | nan =>
          have hmt := hm target
          rw [hmtv] at hmt
          exact absurd hmt (by simp [JsNum.InUnit])
        | val c =>
          have hmt := hm target
          rw [hmtv] at hmt
          obtain ⟨hc0, hc1⟩ := hmt
          simp only [hmtv, jsMin_val, jsMax_val, JsNum.val_sub, JsNum.val_mul,
            JsNum.val_add]
          have hM0 : (0:ℚ) ≤ max 0 (min q 1) := le_max_left 0 _
          have hM1 : max 0 (min q 1) ≤ (1:ℚ) := max_le (by norm_num) (min_le_right q 1)
          refine ⟨?_, ?_⟩
          · nlinarith [mul_nonneg hM0 hs0, mul_nonneg hc0 (sub_nonneg.mpr hs1)]
          · nlinarith [mul_nonneg (sub_nonneg.mpr hc1) (sub_nonneg.mpr hs1),
              mul_nonneg (sub_nonneg.mpr hM1) hs0]
    · exact hm t
  · exact hm t

/-- The expression pass writes only values taken from the fixed expression
catalog (never `NaN`), at lerp speed `0.1`. -/
theorem expressionPass_unitState (m : String → JsNum) (facialExpression : String)
    (hasActiveLipsync : Bool) (hm : UnitState m) :
    UnitState (expressionPass m facialExpression hasActiveLipsync) := by
  unfold expressionPass
  cases facialExpressions.lookup facialExpression with
  | none => exact hm
  | some mapping =>
    refine foldl_unitState_preserve _ mapping
      (fun acc (kv : String × ℚ) _ hacc => ?_) m hm
    split
    · exact hacc
    · split
      · exact applyMorphTarget_inUnit _ _ _ _ (fun h => JsNum.noConfusion h)
          (by norm_num) (by norm_num) hacc
      · exact applyMorphTarget_inUnit _ _ _ _ (fun h => JsNum.noConfusion h)
          (by norm_num) (by norm_num) hacc

/-- The lipsync pass writes only score values that passed the
`NaN`-rejecting threshold comparison, at lerp speed `0.3`. -/
theorem lipsyncPass_unitState (m : String → JsNum)
    (lipsyncVisemes : Option (List (String × JsNum))) (hasActiveLipsync : Bool)
    (hm : UnitState m) :
    UnitState (lipsyncPass m lipsyncVisemes hasActiveLipsync) := by
  unfold lipsyncPass
  cases hasActiveLipsync with
  | false => exact hm
  | true =>
    cases lipsyncVisemes with
    | none => exact hm
    | some vs =>
      refine foldl_unitState_preserve _ vs
        (fun acc (vv : String × JsNum) _ hacc => ?_) m hm
      split
      · exact hacc
      · split
        · rename_i hgt
          exact applyMorphTarget_inUnit _ _ _ _ (jsGtNum_ne_nan hgt)
            (by norm_num [LIPSYNC_SMOOTHING]) (by norm_num [LIPSYNC_SMOOTHING]) hacc
        · exact hacc

/-- The neutral-decay pass writes only the constant `0`, at lerp speed
`0.2`. -/
theorem neutralPass_unitState (m : String → JsNum)
    (lipsyncVisemes : Option (List (String × JsNum))) (hm : UnitState m) :
    UnitState (neutralPass m lipsyncVisemes) := by
  unfold neutralPass
  refine foldl_unitState_preserve _ _ (fun acc (target : String) _ hacc => ?_) m hm
  split
  · exact hacc
  · exact applyMorphTarget_inUnit _ _ _ _ (fun h => JsNum.noConfusion h)
      (by norm_num [LIPSYNC_SMOOTHING]) (by norm_num [LIPSYNC_SMOOTHING]) hacc

/-- Claim C2 (amended) — clamping: every write through `applyMorphTarget`
interpolates toward the input clamped to `[0, 1]` and keeps all intensities in
`[0, 1]` whenever the incoming value is not `NaN`, the lerp speed lies in
`[0, 1]` and the state does; the standalone `clampValue` helper maps negatives
to `0`, values above `1` to `1`, in-range values to themselves and `NaN` to
`0`; and since the per-frame blending step only writes catalog constants,
threshold-checked scores, or `0`, a frame update preserves the invariant that
every blend-target intensity is a finite value in `[0, 1]`. -/
theorem clamping_amended :
    (∀ q : ℚ, q < 0 → clampValue (JsNum.val q) = JsNum.val 0) ∧
    (∀ q : ℚ, 1 < q → clampValue (JsNum.val q) = JsNum.val 1) ∧
    (∀ q : ℚ, 0 ≤ q → q ≤ 1 → clampValue (JsNum.val q) = JsNum.val q) ∧
    clampValue JsNum.nan = JsNum.val 0 ∧
    (∀ (m : String → JsNum) (target : String) (v : JsNum) (s : ℚ),
      v ≠ JsNum.nan → 0 ≤ s → s ≤ 1 → UnitState m →
      UnitState (applyMorphTarget m target v s)) ∧
    (∀ (m : String → JsNum) (facialExpression : String)
      (lipsyncVisemes : Option (List (String × JsNum))) (hasActiveLipsync : Bool),
      UnitState m →
      UnitState (simulateFrameUpdate m facialExpression lipsyncVisemes hasActiveLipsync)) := by
  refine ⟨fun q hq => ?_, fun q hq => ?_, fun q hq0 hq1 => ?_, rfl,
    applyMorphTarget_inUnit, fun m fe lv ha hm => ?_⟩
  · simp only [clampValue, JsNum.isNaN, Bool.false_eq_true, if_false, jsMin_val, jsMax_val]
    rw [min_eq_left (hq.le.trans (by norm_num)), max_eq_left hq.le]
  · simp only [clampValue, JsNum.isNaN, Bool.false_eq_true, if_false, jsMin_val, jsMax_val]
    rw [min_eq_right hq.le, max_eq_right (by norm_num)]
  · simp only [clampValue, JsNum.isNaN, Bool.false_eq_true, if_false, jsMin_val, jsMax_val]
    rw [min_eq_left hq1, max_eq_right hq0]
  · exact neutralPass_unitState _ _
      (lipsyncPass_unitState _ _ _ (expressionPass_unitState _ _ _ hm))

/-- Counterexample to C2 as stated: `applyMorphTarget` performs no `isNaN`
check, so a write of `NaN` (at lerp speed `0.3`, from a zeroed state) stores
`NaN` — not `0`, and not a value in `[0, 1]`. -/
theorem clamping_counterexample :
    applyMorphTarget (fun _ => JsNum.val 0) "viseme_AA" JsNum.nan (3/10) "viseme_AA" =
      JsNum.nan ∧
    ¬ (applyMorphTarget (fun _ => JsNum.val 0) "viseme_AA" JsNum.nan (3/10)
        "viseme_AA").InUnit :=
  ⟨rfl, fun h => h⟩

/-- Witness for C2 (amended) at a concrete zeroed state, a negative input and
lerp speed `1`. -/
theorem clamping_amended_witness :
    clampValue (JsNum.val (-2)) = JsNum.val 0 ∧
    UnitState (applyMorphTarget (fun _ => JsNum.val 0) "jawOpen" (JsNum.val (-2)) 1) ∧
    UnitState (simulateFrameUpdate (fun _ => JsNum.val 0) "smile"
      (some [("viseme_AA", JsNum.val (4/5))]) true) :=
  ⟨clamping_amended.1 (-2) (by norm_num),
   clamping_amended.2.2.2.2.1 (fun _ => JsNum.val 0) "jawOpen" (JsNum.val (-2)) 1
     (fun h => JsNum.noConfusion h) (by norm_num) (by norm_num)
     (fun _ => ⟨le_refl 0, by norm_num⟩),
   clamping_amended.2.2.2.2.2 (fun _ => JsNum.val 0) "smile"
     (some [("viseme_AA", JsNum.val (4/5))]) true
     (fun _ => ⟨le_refl 0, by norm_num⟩)⟩

theorem shouldAdapt_true_elim {o : AdaptivePerformanceOptimizer}
    (h : o.shouldAdapt = true) :
    o.adaptationCount < o.maxAdaptations ∧ 3 ≤ o.performanceHistory.length ∧
    (o.recentAverages.1 > OPTIMAL_PERFORMANCE.MAX_PROCESSING_TIME ∨
     o.recentAverages.2 < OPTIMAL_PERFORMANCE.TARGET_FPS * (8/10)) := by
  unfold AdaptivePerformanceOptimizer.shouldAdapt at h
  by_cases h1 : o.adaptationCount ≥ o.maxAdaptations
  · rw [if_pos h1] at h
    exact absurd h (by simp)
  · rw [if_neg h1] at h
    by_cases h2 : o.performanceHistory.length < 3
    · rw [if_pos h2] at h
      exact absurd h (by simp)
    · rw [if_neg h2] at h
      exact ⟨lt_of_not_ge h1, le_of_not_lt h2, of_decide_eq_true h⟩

theorem optStep_invariant (o : AdaptivePerformanceOptimizer) (op : OptimizerOp)
    (h5 : o.maxAdaptations = 5) (hcount : o.adaptationCount ≤ 5)
    (hhist : o.adaptationCount ≠ 0 → 3 ≤ o.performanceHistory.length) :
    (optStep o op).maxAdaptations = 5 ∧ (optStep o op).adaptationCount ≤ 5 ∧
    ((optStep o op).adaptationCount ≠ 0 →
      3 ≤ (optStep o op).performanceHistory.length) := by
  cases op with
  | analyze now stats =>
    simp only [optStep, AdaptivePerformanceOptimizer.analyzePerformance]
    refine ⟨h5, hcount, fun hne => ?_⟩
    have h3 := hhist hne
    split
    · rename_i hlen
      simp only [List.length_drop, List.length_append, List.length_cons,
        List.length_nil] at *
      omega
    · simp only [List.length_append, List.length_cons, List.length_nil]
      omega
  | adapt =>
    simp only [optStep, AdaptivePerformanceOptimizer.adaptConfiguration]
    cases hsa : o.shouldAdapt with
    | false =>
      simp only [hsa, Bool.not_false, if_true]
      exact ⟨h5, hcount, hhist⟩
    | true =>
      have helim := shouldAdapt_true_elim hsa
      simp only [hsa, Bool.not_true, Bool.false_eq_true, if_false]
      refine ⟨h5, ?_, fun _ => helim.2.1⟩
      have := helim.1
      omega

theorem optRun_invariant (ops : List OptimizerOp) (o : AdaptivePerformanceOptimizer)
    (h5 : o.maxAdaptations = 5) (hcount : o.adaptationCount ≤ 5)
    (hhist : o.adaptationCount ≠ 0 → 3 ≤ o.performanceHistory.length) :
    (optRun o ops).maxAdaptations = 5 ∧ (optRun o ops).adaptationCount ≤ 5 ∧
    ((optRun o ops).adaptationCount ≠ 0 →
      3 ≤ (optRun o ops).performanceHistory.length) := by
  induction ops generalizing o with
  | nil => exact ⟨h5, hcount, hhist⟩
  | cons op ops ih =>
    obtain ⟨a, b, c⟩ := optStep_invariant o op h5 hcount hhist
    exact ih _ a b c

/-- Claim C6 — adaptation gating and cap: `shouldAdapt()` returns true only
when the adaptation counter is strictly below 5, at least 3 stats snapshots
are stored, and the last-3-snapshot averages are poor (average processing time
above the configured maximum, or average FPS below 80% of the 60 FPS target);
consequently, over every operation sequence from a fresh optimizer, the
adaptation counter never exceeds 5, and it is still 0 whenever fewer than 3
snapshots are stored. -/
theorem shouldAdapt_gating_cap :
    (∀ o : AdaptivePerformanceOptimizer, o.maxAdaptations = 5 →
      o.shouldAdapt = true →
      o.adaptationCount < 5 ∧ 3 ≤ o.performanceHistory.length ∧
      (o.recentAverages.1 > OPTIMAL_PERFORMANCE.MAX_PROCESSING_TIME ∨
       o.recentAverages.2 < OPTIMAL_PERFORMANCE.TARGET_FPS * (8/10))) ∧
    (∀ (cfg : LipsyncConfig) (ops : List OptimizerOp),
      (optRun (AdaptivePerformanceOptimizer.init cfg) ops).adaptationCount ≤ 5) ∧
    (∀ (cfg : LipsyncConfig) (ops : List OptimizerOp),
      (optRun (AdaptivePerformanceOptimizer.init cfg) ops).performanceHistory.length < 3 →
      (optRun (AdaptivePerformanceOptimizer.init cfg) ops).adaptationCount = 0) := by
  refine ⟨fun o h5 hsa => ?_, fun cfg ops => ?_, fun cfg ops hlen => ?_⟩
  · have h := shouldAdapt_true_elim hsa
    exact ⟨h5 ▸ h.1, h.2⟩
  · exact (optRun_invariant ops _ rfl (Nat.zero_le _) (fun h => absurd rfl h)).2.1
  · have h := (optRun_invariant ops (AdaptivePerformanceOptimizer.init cfg) rfl
      (Nat.zero_le _) (fun h => absurd rfl h)).2.2
    by_contra hne
    exact absurd (h hne) (by omega)

/-- Witness for C6 at a concrete optimizer holding three poor snapshots
(average processing time 2 ms), on which `shouldAdapt` returns true. -/
theorem shouldAdapt_gating_cap_witness :
    (⟨[⟨0, ⟨2, 60⟩, OPTIMAL_LIPSYNC_CONFIG⟩, ⟨0, ⟨2, 60⟩, OPTIMAL_LIPSYNC_CONFIG⟩,
        ⟨0, ⟨2, 60⟩, OPTIMAL_LIPSYNC_CONFIG⟩], OPTIMAL_LIPSYNC_CONFIG, 0, 5⟩ :
      AdaptivePerformanceOptimizer).adaptationCount < 5 ∧
    3 ≤ (⟨[⟨0, ⟨2, 60⟩, OPTIMAL_LIPSYNC_CONFIG⟩, ⟨0, ⟨2, 60⟩, OPTIMAL_LIPSYNC_CONFIG⟩,
        ⟨0, ⟨2, 60⟩, OPTIMAL_LIPSYNC_CONFIG⟩], OPTIMAL_LIPSYNC_CONFIG, 0, 5⟩ :
      AdaptivePerformanceOptimizer).performanceHistory.length ∧
    ((⟨[⟨0, ⟨2, 60⟩, OPTIMAL_LIPSYNC_CONFIG⟩, ⟨0, ⟨2, 60⟩, OPTIMAL_LIPSYNC_CONFIG⟩,
        ⟨0, ⟨2, 60⟩, OPTIMAL_LIPSYNC_CONFIG⟩], OPTIMAL_LIPSYNC_CONFIG, 0, 5⟩ :
      AdaptivePerformanceOptimizer).recentAverages.1 >
        OPTIMAL_PERFORMANCE.MAX_PROCESSING_TIME ∨
     (⟨[⟨0, ⟨2, 60⟩, OPTIMAL_LIPSYNC_CONFIG⟩, ⟨0, ⟨2, 60⟩, OPTIMAL_LIPSYNC_CONFIG⟩,
        ⟨0, ⟨2, 60⟩, OPTIMAL_LIPSYNC_CONFIG⟩], OPTIMAL_LIPSYNC_CONFIG, 0, 5⟩ :
      AdaptivePerformanceOptimizer).recentAverages.2 <
        OPTIMAL_PERFORMANCE.TARGET_FPS * (8/10)) :=
  shouldAdapt_gating_cap.1 _ rfl
    (by
      simp [AdaptivePerformanceOptimizer.shouldAdapt,
        AdaptivePerformanceOptimizer.recentAverages, OPTIMAL_PERFORMANCE]
      norm_num)

/-- Claim C10 — no-op guarantee: whenever `shouldAdapt()` is false — because
the counter reached the cap, because fewer than 3 snapshots are stored, or
because recent performance is within thresholds — `adaptConfiguration()`
leaves the optimizer state (counter and configuration) unchanged and returns
the current configuration. -/
theorem adaptConfiguration_noop (o : AdaptivePerformanceOptimizer) :
    (o.maxAdaptations ≤ o.adaptationCount → o.shouldAdapt = false) ∧
    (o.performanceHistory.length < 3 → o.shouldAdapt = false) ∧
    (o.shouldAdapt = false → o.adaptConfiguration = (o, o.currentConfig)) := by
  refine ⟨fun h => ?_, fun h => ?_, fun h => ?_⟩
  · simp only [AdaptivePerformanceOptimizer.shouldAdapt]
    rw [if_pos h]
  · simp only [AdaptivePerformanceOptimizer.shouldAdapt]
    by_cases h1 : o.adaptationCount ≥ o.maxAdaptations
    · rw [if_pos h1]
    · rw [if_neg h1, if_pos h]
  · simp [AdaptivePerformanceOptimizer.adaptConfiguration, h]

/-- Witness for C10 at a fresh optimizer (no snapshots), for which
`adaptConfiguration` is a no-op. -/
theorem adaptConfiguration_noop_witness :
    (AdaptivePerformanceOptimizer.init OPTIMAL_LIPSYNC_CONFIG).adaptConfiguration =
      (AdaptivePerformanceOptimizer.init OPTIMAL_LIPSYNC_CONFIG, OPTIMAL_LIPSYNC_CONFIG) :=
  (adaptConfiguration_noop _).2.2 ((adaptConfiguration_noop _).2.1 (by decide))

theorem monitorStep_length_le (st : LipsyncPerformanceMonitor) (op : MonitorOp)
    (h : st.processingTime.length ≤ 100) :
    (monitorStep st op).processingTime.length ≤ 100 := by
  cases op with
  | startTiming => exact h
  | endTiming d =>
    simp only [monitorStep, LipsyncPerformanceMonitor.endTiming]
    split
    · rename_i hgt
      simp only [List.length_drop, List.length_append, List.length_cons,
        List.length_nil]
      omega
    · rename_i hle
      simp only [List.length_append, List.length_cons, List.length_nil] at hle ⊢
      omega
  | recordSuccess => exact h
  | recordError e now => exact h
  | getStats => exact h
  | reset => exact Nat.zero_le _

theorem monitorRun_length_le (ops : List MonitorOp) (st : LipsyncPerformanceMonitor)
    (h : st.processingTime.length ≤ 100) :
    (monitorRun st ops).processingTime.length ≤ 100 := by
  induction ops generalizing st with
  | nil => exact h
  | cons op ops ih => exact ih _ (monitorStep_length_le st op h)

/-- Claim C7 (amended) — monitor bounds: for `LipsyncPerformanceMonitor` (in
`lipsyncErrorHandler.js`), after any operation sequence the stored timing
history has at most 100 entries, a write at the cap evicts the oldest entry
first (FIFO), and `getStats().errorRate` equals
`totalErrors / (totalErrors + totalSuccesses)`, defined as 0 when both
counters are 0; the parallel `LipsyncPerformanceOptimizer` in
`lipsyncOptimization.js` has NO such cap and reports `NaN` at 0/0 (see the
counterexample). -/
theorem monitor_bounds_amended :
    (∀ ops : List MonitorOp,
      (monitorRun LipsyncPerformanceMonitor.init ops).processingTime.length ≤ 100) ∧
    (∀ (st : LipsyncPerformanceMonitor) (d : ℚ), 100 ≤ st.processingTime.length →
      (st.endTiming d).processingTime = st.processingTime.tail ++ [d]) ∧
    (∀ st : LipsyncPerformanceMonitor,
      st.getStats.errorRate =
        JsNum.val (if st.errorCount + st.successCount = 0 then 0
          else (st.errorCount : ℚ) / ((st.errorCount : ℚ) + (st.successCount : ℚ)))) ∧
    LipsyncPerformanceMonitor.init.getStats.errorRate = JsNum.val 0 := by
  refine ⟨fun ops => monitorRun_length_le ops _ (by simp [LipsyncPerformanceMonitor.init]),
    fun st d h100 => ?_, fun st => ?_, rfl⟩
  · simp only [LipsyncPerformanceMonitor.endTiming]
    have hpos : 1 ≤ st.processingTime.length := le_trans (by norm_num) h100
    rw [if_pos (by simp only [List.length_append, List.length_cons, List.length_nil]; omega)]
    rw [List.drop_append_of_le_length hpos, List.drop_one]
  · simp only [LipsyncPerformanceMonitor.getStats, jsDivCounts]
    by_cases h0 : st.errorCount + st.successCount = 0
    · simp [h0, jsOrZero]
    · rw [if_neg h0, if_neg h0]
      by_cases hr : (st.errorCount : ℚ) / ((st.errorCount : ℚ) + (st.successCount : ℚ)) = 0
      · simp [jsOrZero, hr]
      · simp [jsOrZero, hr]

/-- Witness for C7 (amended): a monitor holding exactly 100 samples evicts the
oldest on the next write. -/
theorem monitor_bounds_amended_witness :
    ((⟨List.replicate 100 (0:ℚ), 0, 0, none⟩ :
        LipsyncPerformanceMonitor).endTiming 1).processingTime =
      (List.replicate 100 (0:ℚ)).tail ++ [1] :=
  monitor_bounds_amended.2.1 ⟨List.replicate 100 0, 0, 0, none⟩ 1 (by simp)

theorem endTiming_iter_length (n : ℕ) (st : LipsyncPerformanceOptimizer) :
    ((fun st : LipsyncPerformanceOptimizer => st.endTiming 0 1 "processing")^[n]
        st).measurements.length = st.measurements.length + n := by
  induction n generalizing st with
  | zero => simp
  | succ n ih =>
    rw [Function.iterate_succ_apply']
    have hn := ih st
    generalize hk : (fun st : LipsyncPerformanceOptimizer =>
      st.endTiming 0 1 "processing")^[n] st = k at hn ⊢
    simp only [LipsyncPerformanceOptimizer.endTiming, List.length_append,
      List.length_cons, List.length_nil]
    omega

/-- Counterexample to C7 as stated: `LipsyncPerformanceOptimizer` (one of the
two components the claim describes) applies no cap — 101 consecutive
`endTiming` calls leave 101 stored measurements — and its `errorRate` is `NaN`
(not 0) when both counters are zero. -/
theorem monitor_bounds_counterexample :
    ((fun st : LipsyncPerformanceOptimizer => st.endTiming 0 1 "processing")^[101]
        (LipsyncPerformanceOptimizer.init 0)).measurements.length = 101 ∧
    ¬ (((fun st : LipsyncPerformanceOptimizer => st.endTiming 0 1 "processing")^[101]
        (LipsyncPerformanceOptimizer.init 0)).measurements.length ≤ 100) ∧
    (LipsyncPerformanceOptimizer.init 0).getStatsErrorRate = JsNum.nan := by
  have h101 : ((fun st : LipsyncPerformanceOptimizer =>
      st.endTiming 0 1 "processing")^[101]
        (LipsyncPerformanceOptimizer.init 0)).measurements.length = 101 := by
    simpa using endTiming_iter_length 101 (LipsyncPerformanceOptimizer.init 0)
  exact ⟨h101, by rw [h101]; omega, rfl⟩

/-- Claim C8 — fallback synthesis: `generateFallbackLipsync` returns the empty
mapping exactly when the audio source is absent, paused, or ended, or its
duration is falsy (unknown) or exhausted (`currentTime >= duration`);
otherwise it maps exactly the four targets `viseme_AA`, `viseme_E`,
`viseme_I`, `viseme_O` to the base value
`clamp01(sin(currentTime * 8) * intensity + intensity)` scaled by the weights
`0.7`, `0.3`, `0.2`, `0.4` respectively; and it is a pure, deterministic
function of its inputs. -/
theorem generateFallbackLipsync_spec (sin : ℚ → ℚ) (audioEl : Option AudioRef)
    (intensity : ℚ) :
    (generateFallbackLipsync sin audioEl intensity = [] ↔
      audioEl = none ∨ ∃ a : AudioRef, audioEl = some a ∧
        (a.paused = true ∨ a.ended = true ∨ a.duration.falsy = true ∨
          jsGeNum a.currentTime a.duration = true)) ∧
    (∀ a : AudioRef, audioEl = some a → a.paused = false → a.ended = false →
      a.duration.falsy = false → jsGeNum a.currentTime a.duration = false →
      generateFallbackLipsync sin audioEl intensity =
        [("viseme_AA", max 0 (min (sin (a.currentTime * 8) * intensity + intensity) 1) * (7/10)),
         ("viseme_E", max 0 (min (sin (a.currentTime * 8) * intensity + intensity) 1) * (3/10)),
         ("viseme_I", max 0 (min (sin (a.currentTime * 8) * intensity + intensity) 1) * (2/10)),
         ("viseme_O", max 0 (min (sin (a.currentTime * 8) * intensity + intensity) 1) * (4/10))]) ∧
    (∀ (audioEl2 : Option AudioRef) (intensity2 : ℚ),
      audioEl = audioEl2 → intensity = intensity2 →
      generateFallbackLipsync sin audioEl intensity =
        generateFallbackLipsync sin audioEl2 intensity2) := by
  refine ⟨?_, fun a ha hp he hd hge => ?_, fun a2 i2 h1 h2 => by rw [h1, h2]⟩
  · cases audioEl with
    | none => simp [generateFallbackLipsync]
    | some a =>
      rcases hpa : a.paused with _ | _ <;> rcases hen : a.ended with _ | _ <;>
        rcases hfa : a.duration.falsy with _ | _ <;>
        rcases hge : jsGeNum a.currentTime a.duration with _ | _ <;>
        simp [generateFallbackLipsync, hpa, hen, hfa, hge]
  · subst ha
    simp [generateFallbackLipsync, hp, he, hd, hge]

/-- Witness for C8 at a playing audio element (`currentTime = 1`,
`duration = 10`), a constant-zero sine and `intensity = 1`. -/
theorem generateFallbackLipsync_spec_witness :
    (generateFallbackLipsync (fun _ => (0:ℚ)) (some ⟨false, false, 1, JsNum.val 10⟩)
      1).length = 4 := by
  rw [(generateFallbackLipsync_spec (fun _ => (0:ℚ))
      (some ⟨false, false, 1, JsNum.val 10⟩) 1).2.1
    ⟨false, false, 1, JsNum.val 10⟩ rfl rfl rfl (by decide) (by decide)]
  rfl

/-- Claim C9 — capability detection never fails hard: `detectBrowserSupport`
is total over every probed environment; `isSupported` is false exactly when
the audio-context primitive or the media-stream primitive is missing or the
probing itself raised; analyser-instantiation failure only prepends a warning
and changes neither the verdict nor the missing features; the user-agent
string (Safari-class, mobile-class, Firefox-class) influences only warnings;
and a probe raise adds the missing-feature entry. -/
theorem detectBrowserSupport_spec (env : BrowserEnv) :
    ((detectBrowserSupport env).isSupported =
      ((env.hasAudioContext || env.hasWebkitAudioContext) && env.hasMediaStream &&
        env.userAgent.isSome)) ∧
    ((detectBrowserSupport { env with analyserCreationFails := true }).isSupported =
      (detectBrowserSupport { env with analyserCreationFails := false }).isSupported) ∧
    ((detectBrowserSupport { env with analyserCreationFails := true }).missingFeatures =
      (detectBrowserSupport { env with analyserCreationFails := false }).missingFeatures) ∧
    ((detectBrowserSupport { env with analyserCreationFails := true }).warnings =
      (if env.hasAudioContext || env.hasWebkitAudioContext then
        ["AnalyserNode creation failed"] else []) ++
      (detectBrowserSupport { env with analyserCreationFails := false }).warnings) ∧
    (∀ ua1 ua2 : String,
      (detectBrowserSupport { env with userAgent := some ua1 }).isSupported =
        (detectBrowserSupport { env with userAgent := some ua2 }).isSupported ∧
      (detectBrowserSupport { env with userAgent := some ua1 }).missingFeatures =
        (detectBrowserSupport { env with userAgent := some ua2 }).missingFeatures) ∧
    (env.userAgent = none →
      (detectBrowserSupport env).isSupported = false ∧
      "Browser detection failed" ∈ (detectBrowserSupport env).missingFeatures) := by
  obtain ⟨a, w, ms, af, ua⟩ := env
  refine ⟨?_, ?_, ?_, ?_, fun ua1 ua2 => ⟨?_, ?_⟩, fun hua => ?_⟩
  · cases ua <;> cases a <;> cases w <;> cases ms <;> rfl
  · cases ua <;> cases a <;> cases w <;> cases ms <;> rfl
  · cases ua <;> cases a <;> cases w <;> cases ms <;> rfl
  · cases ua <;> cases a <;> cases w <;> cases ms <;>
      first
        | rfl
        | (simp only [detectBrowserSupport]
           simp only [Bool.or_true, Bool.or_false, Bool.true_or, Bool.false_or,
             Bool.and_true, Bool.and_false, Bool.true_and, Bool.false_and,
             if_true, if_false, Bool.false_eq_true, Bool.true_eq_false]
           try split_ifs <;> simp)
  · cases a <;> cases w <;> cases ms <;> rfl
  · cases a <;> cases w <;> cases ms <;> rfl
  · cases ua with
    | none =>
      cases a <;> cases w <;> cases ms <;> exact ⟨rfl, by simp [detectBrowserSupport]⟩
    | some u => exact absurd hua (by simp)

/-- Witness for C9 at a concrete environment whose probing raises. -/
theorem detectBrowserSupport_spec_witness :
    (detectBrowserSupport ⟨true, false, true, false, none⟩).isSupported = false ∧
    "Browser detection failed" ∈
      (detectBrowserSupport ⟨true, false, true, false, none⟩).missingFeatures :=
  (detectBrowserSupport_spec ⟨true, false, true, false, none⟩).2.2.2.2.2 rfl

end Lipsync
